import Mathlib

/-!
# Verification of the gravitational identity model

Shallow embedding of `src/core/identity_model.py` and
`src/core/emotion_templates.py`. Python floats are modelled as exact
rationals (`ℚ`); Python lists as `List`; Python dicts as association
lists with insert-or-overwrite semantics that preserve key positions;
a raised exception is modelled as a returned error value carrying the
exception class and message, with the relevant slice of CPython's
builtin exception hierarchy encoded explicitly.
-/

namespace AGISeed

/-- Clamp to the unit interval, as in the Python idiom
`max(0.0, min(1.0, x))`. -/
def clamp01 (x : ℚ) : ℚ := max 0 (min 1 x)

/-- `Experience.__init__`: content tag, valence string, intensity, source. -/
structure Experience where
  content : String
  valence : String
  intensity : ℚ
  source : String
deriving DecidableEq

/-- `Experience.weighted_value(loss_aversion_factor=2.0)`: positive valence
returns the intensity; any other valence returns
`-1.0 * intensity * loss_aversion_factor`. -/
def Experience.weighted_value (e : Experience) (loss_aversion_factor : ℚ) : ℚ :=
  if e.valence = "positive" then e.intensity
  else -1 * e.intensity * loss_aversion_factor

/-- `Belief` state: name, strength, experience history, maturity threshold,
baseline strength for elastic recovery. -/
structure Belief where
  name : String
  strength : ℚ
  experiences : List Experience
  experience_threshold : ℕ
  baseline_strength : ℚ
deriving DecidableEq

/-- `Belief.__init__(name, strength=0.5, experience_threshold=1000)`:
`self.strength` is clamped to [0,1] but `self.baseline_strength` is the
raw constructor argument. -/
def Belief.create (name : String) (strength : ℚ) (experience_threshold : ℕ) : Belief :=
  { name := name
    strength := clamp01 strength
    experiences := []
    experience_threshold := experience_threshold
    baseline_strength := strength }

/-- `Belief.adaptability`: `1 - strength`. -/
def Belief.adaptability (b : Belief) : ℚ := 1 - b.strength

/-- `Belief._calculate_experience_weight`: step function of the current
history length. -/
def Belief.calculate_experience_weight (b : Belief) : ℚ :=
  let current_experiences := b.experiences.length
  if current_experiences < 10 then 1
  else if current_experiences < 100 then 1/2
  else if current_experiences < b.experience_threshold then 1/5
  else 1/10

/-- `Belief._calculate_elastic_resistance`: step function of the distance
between current strength and baseline strength. -/
def Belief.calculate_elastic_resistance (b : Belief) : ℚ :=
  let distance_from_baseline := |b.strength - b.baseline_strength|
  if distance_from_baseline < 1/10 then 1
  else if distance_from_baseline < 3/10 then 7/10
  else 3/10

/-- Trauma branch of `Belief.update_from_experience`: negative valence with
intensity strictly above 0.9 scales by 0.05, everything else by 0.001. -/
def trauma_scaling_factor (e : Experience) : ℚ :=
  if e.valence = "negative" ∧ e.intensity > 9/10 then 1/20 else 1/1000

/-- `Belief.update_from_experience(experience, loss_aversion_factor=2.0)`:
append to history, then compute the experience weight from the post-append
length, the trauma scaling factor, the raw change from weighted value and
adaptability, the elastic resistance from the pre-update strength, and
finally clamp the new strength to [0,1]. -/
def Belief.update_from_experience (b : Belief) (experience : Experience)
    (loss_aversion_factor : ℚ) : Belief :=
  let b1 := { b with experiences := b.experiences ++ [experience] }
  let experience_weight := b1.calculate_experience_weight
  let scaling_factor := trauma_scaling_factor experience
  let raw_change := experience.weighted_value loss_aversion_factor * b1.adaptability
  let change := raw_change * scaling_factor * experience_weight
  let elastic_resistance := b1.calculate_elastic_resistance
  let change2 := change * elastic_resistance
  { b1 with strength := clamp01 (b1.strength + change2) }

/-- `Belief.apply_elastic_recovery(recovery_factor=0.01)`: when more than
0.05 away from baseline, nudge strength toward baseline by the recovery
factor and clamp; otherwise do nothing. -/
def Belief.apply_elastic_recovery (b : Belief) (recovery_factor : ℚ) : Belief :=
  if |b.strength - b.baseline_strength| > 1/20 then
    let direction : ℚ := if b.baseline_strength > b.strength then 1 else -1
    let recovery := direction * recovery_factor
    { b with strength := clamp01 (b.strength + recovery) }
  else b

/-- Python `dict` assignment `d[k] = v`: overwrite in place when the key is
present (keeping its position), otherwise append at the end. -/
def dictInsert {α : Type} : List (String × α) → String → α → List (String × α)
  | [], k, v => [(k, v)]
  | (k0, v0) :: rest, k, v =>
      if k0 = k then (k, v) :: rest else (k0, v0) :: dictInsert rest k v

/-- Python `dict` lookup `d[k]` / `k in d`: first (unique) binding of `k`. -/
def dictGet {α : Type} : List (String × α) → String → Option α
  | [], _ => none
  | (k0, v0) :: rest, k => if k0 = k then some v0 else dictGet rest k

/-- The slice of CPython's builtin exception hierarchy relevant here. -/
inductive PyExcClass where
  | exception
  | lookupError
  | keyError
  | indexError
  | valueError
deriving DecidableEq

/-- Direct base class of each exception class in CPython: `KeyError` and
`IndexError` derive from `LookupError`; `LookupError` and `ValueError`
derive directly from `Exception`. -/
def pyBase : PyExcClass → Option PyExcClass
  | PyExcClass.keyError => some PyExcClass.lookupError
  | PyExcClass.indexError => some PyExcClass.lookupError
  | PyExcClass.lookupError => some PyExcClass.exception
  | PyExcClass.valueError => some PyExcClass.exception
  | PyExcClass.exception => none

/-- `issubclass` over the encoded hierarchy (reflexive, up to two base steps,
enough for the classes encoded here). -/
def pyIsSubclass (c p : PyExcClass) : Bool :=
  c = p ||
    (match pyBase c with
     | some b =>
         b = p ||
           (match pyBase b with
            | some b2 => b2 = p
            | none => false)
     | none => false)

/-- ASCII single-quote character. -/
def quoteChar : Char := Char.ofNat 39

/-- The message of the error raised by `Identity.integrate_experience` for
an unknown belief name. -/
def belief_not_found_message (n : String) : String :=
  "Belief " ++ String.singleton quoteChar ++ n ++ String.singleton quoteChar
    ++ " not found in identity"

/-- `Identity` state: label, belief mapping (name-keyed dict), cached mass. -/
structure Identity where
  core_label : String
  beliefs : List (String × Belief)
  mass : ℚ
deriving DecidableEq

/-- `Identity.recalculate_mass`: set mass to the sum of belief strengths. -/
def sumStrengths (bs : List (String × Belief)) : ℚ :=
  (bs.map (fun kv => kv.2.strength)).sum

/-- `Identity.recalculate_mass` as a state transformer. -/
def Identity.recalculate_mass (i : Identity) : Identity :=
  { i with mass := sumStrengths i.beliefs }

/-- `Identity.add_belief(belief)`: insert keyed by the belief's name, then
recalculate mass. -/
def Identity.add_belief (i : Identity) (b : Belief) : Identity :=
  Identity.recalculate_mass { i with beliefs := dictInsert i.beliefs b.name b }

/-- `Identity.integrate_experience(experience, target_belief_name,
loss_aversion_factor=2.0)`: when the name is present, update that belief and
recalculate mass; otherwise raise `ValueError` leaving the state untouched.
The result pairs the post-call state with the raised exception, if any. -/
def Identity.integrate_experience (i : Identity) (experience : Experience)
    (target_belief_name : String) (loss_aversion_factor : ℚ) :
    Identity × Option (PyExcClass × String) :=
  match dictGet i.beliefs target_belief_name with
  | some b =>
      let b1 := b.update_from_experience experience loss_aversion_factor
      (Identity.recalculate_mass
        { i with beliefs := dictInsert i.beliefs target_belief_name b1 }, none)
  | none =>
      (i, some (PyExcClass.valueError, belief_not_found_message target_belief_name))

/-- `Identity.gravitational_resistance`: `mass ** 2`, computed on read. -/
def Identity.gravitational_resistance (i : Identity) : ℚ := i.mass ^ 2

/-- `EmotionTemplate` mutable state: intensity and remaining active
duration (`int` in Python, so `ℤ`). -/
structure EmotionState where
  intensity : ℚ
  active_duration : ℤ
deriving DecidableEq

/-- `EmotionTemplate.activate(intensity, duration=3)`: keep the strongest
intensity and the longest duration. -/
def EmotionState.activate (st : EmotionState) (intensity : ℚ) (duration : ℤ) :
    EmotionState :=
  { intensity := max st.intensity intensity
    active_duration := max st.active_duration duration }

/-- `EmotionTemplate.decay(decay_rate=0.3)`: while the active duration is
positive, decrement it, multiplying intensity by `1 - decay_rate` only once
the decremented duration reaches zero; outside the active window, always
multiply intensity by `1 - decay_rate`. -/
def EmotionState.decay (st : EmotionState) (decay_rate : ℚ) : EmotionState :=
  if st.active_duration > 0 then
    let d := st.active_duration - 1
    if d ≤ 0 then { intensity := st.intensity * (1 - decay_rate), active_duration := d }
    else { intensity := st.intensity, active_duration := d }
  else
    { intensity := st.intensity * (1 - decay_rate), active_duration := st.active_duration }

/-- `EmotionTemplate.is_active`: intensity strictly above 0.05. -/
def EmotionState.is_active (st : EmotionState) : Bool := st.intensity > 1/20

/-- `Fear.check_trigger`: negative valence with intensity above 0.7. -/
def fear_check_trigger (e : Experience) : ℚ :=
  if e.valence = "negative" ∧ e.intensity > 7/10 then
    min ((e.intensity - 7/10) * 2) 1
  else 0

/-- `Shame.check_trigger`: negative valence with intensity above 0.6. -/
def shame_check_trigger (e : Experience) : ℚ :=
  if e.valence = "negative" ∧ e.intensity > 3/5 then
    min ((e.intensity - 3/5) * (3/2)) 1
  else 0

/-- `Comfort.check_trigger`: positive valence. -/
def comfort_check_trigger (e : Experience) : ℚ :=
  if e.valence = "positive" then e.intensity * (3/5) else 0

/-- `Pride.check_trigger`: positive valence. -/
def pride_check_trigger (e : Experience) : ℚ :=
  if e.valence = "positive" then min (e.intensity * (11/10)) 1 else 0

/-- `Loneliness.check_trigger`: negative valence. -/
def loneliness_check_trigger (e : Experience) : ℚ :=
  if e.valence = "negative" then e.intensity * (7/10) else 0

/-- `Fear.influence_belief_update`: when active, amplify negative
experiences and always add a resistance multiplier. -/
def fear_influence (st : EmotionState) (_b : Belief) (e : Experience) :
    List (String × ℚ) :=
  if st.is_active then
    (if e.valence = "negative" then
       [("intensity_multiplier", 1 + st.intensity * (1/2))]
     else []) ++
    [("resistance_multiplier", 1 + st.intensity * (3/10))]
  else []

/-- `Shame.influence_belief_update`: when active, amplify negative and
dampen non-negative experiences. -/
def shame_influence (st : EmotionState) (_b : Belief) (e : Experience) :
    List (String × ℚ) :=
  if st.is_active then
    if e.valence = "negative" then
      [("intensity_multiplier", 1 + st.intensity * (7/10))]
    else
      [("intensity_multiplier", 1 - st.intensity * (2/5))]
  else []

/-- `Comfort.influence_belief_update`: when active, always dampen, and
slightly enhance positive experiences. -/
def comfort_influence (st : EmotionState) (_b : Belief) (e : Experience) :
    List (String × ℚ) :=
  if st.is_active then
    [("emotional_dampening", st.intensity * (3/10))] ++
    (if e.valence = "positive" then
       [("intensity_multiplier", 1 + st.intensity * (1/5))]
     else [])
  else []

/-- `Pride.influence_belief_update`: when active, amplify positive and
soften negative experiences. -/
def pride_influence (st : EmotionState) (_b : Belief) (e : Experience) :
    List (String × ℚ) :=
  if st.is_active then
    if e.valence = "positive" then
      [("intensity_multiplier", 1 + st.intensity * (3/5))]
    else if e.valence = "negative" then
      [("intensity_multiplier", 1 - st.intensity * (1/5))]
    else []
  else []

/-- `Loneliness.influence_belief_update`: when active, add social
sensitivity and an intensity multiplier. -/
def loneliness_influence (st : EmotionState) (_b : Belief) (_e : Experience) :
    List (String × ℚ) :=
  if st.is_active then
    [("social_sensitivity", 1 + st.intensity * (1/2)),
     ("intensity_multiplier", 1 + st.intensity * (3/10))]
  else []

/-- `EmotionSystem.__init__`: the five templates in dict insertion order
fear, shame, comfort, pride, loneliness. -/
structure EmotionSystem where
  fear : EmotionState
  shame : EmotionState
  comfort : EmotionState
  pride : EmotionState
  loneliness : EmotionState
deriving DecidableEq

/-- A freshly constructed `EmotionSystem`: every template starts with
intensity 0 and active duration 0. -/
def freshEmotionSystem : EmotionSystem :=
  ⟨⟨0, 0⟩, ⟨0, 0⟩, ⟨0, 0⟩, ⟨0, 0⟩, ⟨0, 0⟩⟩

/-- Python `dict.update(new)`: fold the new bindings into the dict,
overwriting on key collision. -/
def dictUpdateAll (d new : List (String × ℚ)) : List (String × ℚ) :=
  new.foldl (fun acc kv => dictInsert acc kv.1 kv.2) d

/-- The activation step of `EmotionSystem.process_experience` for one
template: activate with duration 3 when the trigger intensity is
strictly positive. -/
def activateIf (st : EmotionState) (t : ℚ) : EmotionState :=
  if t > 0 then st.activate t 3 else st

/-- `EmotionSystem.process_experience(experience, belief)`: check triggers
and activate, then merge the modification dicts of the active templates in
iteration order, then decay every template; returns the merged dict and the
post-call system state. -/
def EmotionSystem.process_experience (s : EmotionSystem) (e : Experience)
    (b : Belief) : List (String × ℚ) × EmotionSystem :=
  let fear1 := activateIf s.fear (fear_check_trigger e)
  let shame1 := activateIf s.shame (shame_check_trigger e)
  let comfort1 := activateIf s.comfort (comfort_check_trigger e)
  let pride1 := activateIf s.pride (pride_check_trigger e)
  let loneliness1 := activateIf s.loneliness (loneliness_check_trigger e)
  let mods0 : List (String × ℚ) := []
  let mods1 := if fear1.is_active then dictUpdateAll mods0 (fear_influence fear1 b e) else mods0
  let mods2 := if shame1.is_active then dictUpdateAll mods1 (shame_influence shame1 b e) else mods1
  let mods3 := if comfort1.is_active then dictUpdateAll mods2 (comfort_influence comfort1 b e) else mods2
  let mods4 := if pride1.is_active then dictUpdateAll mods3 (pride_influence pride1 b e) else mods3
  let mods5 := if loneliness1.is_active then dictUpdateAll mods4 (loneliness_influence loneliness1 b e) else mods4
  (mods5,
   ⟨fear1.decay (3/10), shame1.decay (3/10), comfort1.decay (3/10),
    pride1.decay (3/10), loneliness1.decay (3/10)⟩)

/-- Phase 1 of `process_experience` in isolation: trigger checks and
activations for all five templates. -/
def triggerPhase (s : EmotionSystem) (e : Experience) : EmotionSystem :=
  ⟨activateIf s.fear (fear_check_trigger e),
   activateIf s.shame (shame_check_trigger e),
   activateIf s.comfort (comfort_check_trigger e),
   activateIf s.pride (pride_check_trigger e),
   activateIf s.loneliness (loneliness_check_trigger e)⟩

/-- Phase 2 of `process_experience` in isolation: left fold of the Python
dict-update over the active templates' modification dicts, in iteration
order (fear, shame, comfort, pride, loneliness); later templates overwrite
earlier ones on key collision. -/
def collectPhase (s : EmotionSystem) (b : Belief) (e : Experience) :
    List (String × ℚ) :=
  [(s.fear.is_active, fear_influence s.fear b e),
   (s.shame.is_active, shame_influence s.shame b e),
   (s.comfort.is_active, comfort_influence s.comfort b e),
   (s.pride.is_active, pride_influence s.pride b e),
   (s.loneliness.is_active, loneliness_influence s.loneliness b e)].foldl
    (fun acc p => if p.1 then dictUpdateAll acc p.2 else acc) []

/-- Phase 3 of `process_experience` in isolation: decay every template
once with the default rate 0.3. -/
def decayPhase (s : EmotionSystem) : EmotionSystem :=
  ⟨s.fear.decay (3/10), s.shame.decay (3/10), s.comfort.decay (3/10),
   s.pride.decay (3/10), s.loneliness.decay (3/10)⟩

/-- One mutating call on a `Belief`: either `update_from_experience` with an
arbitrary experience and loss-aversion factor, or `apply_elastic_recovery`
with an arbitrary recovery factor. -/
inductive BeliefOp where
  | update (e : Experience) (L : ℚ)
  | recover (r : ℚ)

/-- Apply one `BeliefOp` to a belief. -/
def applyBeliefOp (b : Belief) : BeliefOp → Belief
  | BeliefOp.update e L => b.update_from_experience e L
  | BeliefOp.recover r => b.apply_elastic_recovery r

/-- Apply a finite sequence of interleaved update and recovery calls. -/
def applyBeliefOps (b : Belief) (ops : List BeliefOp) : Belief :=
  ops.foldl applyBeliefOp b

/-- A trauma-level negative experience with intensity 0.95. -/
def trauma95 : Experience := ⟨"x", "negative", 19/20, "s"⟩

/-- A concrete belief of strength 0.6 used in the emotion scenarios. -/
def competence_belief : Belief := Belief.create "b" (3/5) 1000

/-- The emotion-system state after one `process_experience` call on a fresh
system with the intensity-0.95 negative experience. -/
def afterProcess : EmotionSystem :=
  (EmotionSystem.process_experience freshEmotionSystem trauma95 competence_belief).2

/-- The merged modification dict returned by that same call. -/
def processMods : List (String × ℚ) :=
  (EmotionSystem.process_experience freshEmotionSystem trauma95 competence_belief).1

lemma clamp01_nonneg (x : ℚ) : 0 ≤ clamp01 x := le_max_left 0 _

lemma clamp01_le_one (x : ℚ) : clamp01 x ≤ 1 :=
  max_le (by norm_num) (min_le_left 1 x)

lemma update_strength_mem (b : Belief) (e : Experience) (L : ℚ) :
    0 ≤ (b.update_from_experience e L).strength ∧
      (b.update_from_experience e L).strength ≤ 1 := by
  constructor
  · exact clamp01_nonneg _
  · exact clamp01_le_one _

lemma recovery_strength_mem (b : Belief) (r : ℚ) (h0 : 0 ≤ b.strength)
    (h1 : b.strength ≤ 1) :
    0 ≤ (b.apply_elastic_recovery r).strength ∧
      (b.apply_elastic_recovery r).strength ≤ 1 := by
  unfold Belief.apply_elastic_recovery
  split
  · exact ⟨clamp01_nonneg _, clamp01_le_one _⟩
  · exact ⟨h0, h1⟩

lemma beliefOp_strength_mem (b : Belief) (op : BeliefOp) (h0 : 0 ≤ b.strength)
    (h1 : b.strength ≤ 1) :
    0 ≤ (applyBeliefOp b op).strength ∧ (applyBeliefOp b op).strength ≤ 1 := by
  cases op with
  | update e L => exact update_strength_mem b e L
  | recover r => exact recovery_strength_mem b r h0 h1

/-- C1: for every belief whose strength starts in [0,1] (as every
constructed belief does) and every finite sequence of
`update_from_experience` calls with arbitrary experiences interleaved with
arbitrary `apply_elastic_recovery` calls, the strength is in [0,1] after
every call. -/
theorem identity_C1 (b : Belief) (ops : List BeliefOp) (h0 : 0 ≤ b.strength)
    (h1 : b.strength ≤ 1) :
    0 ≤ (applyBeliefOps b ops).strength ∧ (applyBeliefOps b ops).strength ≤ 1 := by
  induction ops generalizing b with
  | nil => exact ⟨h0, h1⟩
  | cons op rest ih =>
      have hstep := beliefOp_strength_mem b op h0 h1
      exact ih (applyBeliefOp b op) hstep.1 hstep.2

/-- Witness for C1: a concrete run with a repeated trauma-level negative
experience and an interleaved recovery call stays in [0,1]. -/
theorem identity_C1_witness :
    0 ≤ (applyBeliefOps competence_belief
          [BeliefOp.update trauma95 2, BeliefOp.update trauma95 2,
           BeliefOp.recover (1/100), BeliefOp.update trauma95 2]).strength ∧
      (applyBeliefOps competence_belief
          [BeliefOp.update trauma95 2, BeliefOp.update trauma95 2,
           BeliefOp.recover (1/100), BeliefOp.update trauma95 2]).strength ≤ 1 :=
  identity_C1 competence_belief
    [BeliefOp.update trauma95 2, BeliefOp.update trauma95 2,
     BeliefOp.recover (1/100), BeliefOp.update trauma95 2]
    (by norm_num [competence_belief, Belief.create, clamp01, min_def, max_def])
    (by norm_num [competence_belief, Belief.create, clamp01, min_def, max_def])

/-- C2: after every `add_belief` call and every successful
`integrate_experience` call the mass equals the sum of belief strengths,
and `gravitational_resistance` always returns exactly `mass ^ 2`. -/
theorem identity_C2 :
    (∀ (i : Identity) (b : Belief),
       (i.add_belief b).mass = sumStrengths (i.add_belief b).beliefs)
    ∧ (∀ (i : Identity) (e : Experience) (n : String) (L : ℚ),
       (i.integrate_experience e n L).2 = none →
       ((i.integrate_experience e n L).1).mass =
         sumStrengths ((i.integrate_experience e n L).1).beliefs)
    ∧ (∀ i : Identity, i.gravitational_resistance = i.mass ^ 2) := by
  refine ⟨?_, ?_, fun i => rfl⟩
  · intro i b
    simp [Identity.add_belief, Identity.recalculate_mass]
  · intro i e n L h
    unfold Identity.integrate_experience at h ⊢
    cases hd : dictGet i.beliefs n with
    | some b => simp [hd, Identity.recalculate_mass]
    | none => simp [hd] at h

/-- Witness for C2: a successful concrete `integrate_experience` call has a
fresh mass equal to the sum of belief strengths. -/
theorem identity_C2_witness :
    ((((Identity.mk "X" [] 0).add_belief competence_belief).integrate_experience
        ⟨"x", "positive", 4/5, "s"⟩ "b" 2).1).mass =
      sumStrengths ((((Identity.mk "X" [] 0).add_belief
        competence_belief).integrate_experience
        ⟨"x", "positive", 4/5, "s"⟩ "b" 2).1).beliefs :=
  identity_C2.2.1 ((Identity.mk "X" [] 0).add_belief competence_belief)
    ⟨"x", "positive", 4/5, "s"⟩ "b" 2 rfl

/-- C3: `update_from_experience` appends the experience to the history and
sets the strength to the clamped sum of the old strength and the change
computed from the weighted value, adaptability, trauma scaling factor, the
post-append experience weight, and the pre-update elastic factor. -/
theorem identity_C3 (b : Belief) (e : Experience) (L : ℚ) :
    (b.update_from_experience e L).experiences = b.experiences ++ [e]
    ∧ (b.update_from_experience e L).strength =
        clamp01 (b.strength +
          e.weighted_value L * (1 - b.strength) *
          (if e.valence = "negative" ∧ e.intensity > 9/10 then 1/20 else 1/1000) *
          (if b.experiences.length + 1 < 10 then 1
           else if b.experiences.length + 1 < 100 then 1/2
           else if b.experiences.length + 1 < b.experience_threshold then 1/5
           else 1/10) *
          (if |b.strength - b.baseline_strength| < 1/10 then 1
           else if |b.strength - b.baseline_strength| < 3/10 then 7/10
           else 3/10)) := by
  constructor
  · rfl
  · simp [Belief.update_from_experience, Belief.calculate_experience_weight,
      Belief.calculate_elastic_resistance, Belief.adaptability,
      trauma_scaling_factor]

/-- C4: the trauma branch classifies an experience as traumatic exactly when
its valence is negative and its intensity exceeds 0.9, giving scaling factor
0.05 versus 0.001 otherwise; intensity 0.90 is non-traumatic while 0.9001 is
traumatic, a 50-times jump in the scaling factor. -/
theorem identity_C4 :
    (∀ e : Experience,
       trauma_scaling_factor e = 1/20 ↔
         e.valence = "negative" ∧ e.intensity > 9/10)
    ∧ (∀ e : Experience,
       ¬(e.valence = "negative" ∧ e.intensity > 9/10) →
         trauma_scaling_factor e = 1/1000)
    ∧ trauma_scaling_factor ⟨"x", "negative", 90/100, "s"⟩ = 1/1000
    ∧ trauma_scaling_factor ⟨"x", "negative", 9001/10000, "s"⟩ = 1/20
    ∧ trauma_scaling_factor ⟨"x", "negative", 9001/10000, "s"⟩ =
        50 * trauma_scaling_factor ⟨"x", "negative", 90/100, "s"⟩ := by
  refine ⟨?_, ?_, by norm_num [trauma_scaling_factor],
    by norm_num [trauma_scaling_factor], by norm_num [trauma_scaling_factor]⟩
  · intro e
    by_cases h : e.valence = "negative" ∧ e.intensity > 9/10
    · simp [trauma_scaling_factor, h]
    · simp only [trauma_scaling_factor, if_neg h]
      constructor
      · intro habs
        exact absurd habs (by norm_num)
      · intro habs
        exact absurd habs h
  · intro e h
    simp [trauma_scaling_factor, h]

/-- Witness for C4: a positive experience takes the non-traumatic 0.001
branch. -/
theorem identity_C4_witness :
    trauma_scaling_factor ⟨"x", "positive", 1, "s"⟩ = 1/1000 :=
  identity_C4.2.1 ⟨"x", "positive", 1, "s"⟩ (by decide)

/-- C5 counterexample: at a concrete unknown belief name the raised error is
`ValueError`, and `ValueError` is not in the `LookupError` class hierarchy,
so the failure is not a LookupError-class error as the claim states. -/
theorem identity_C5_counterexample :
    ((Identity.mk "X" [] 0).integrate_experience ⟨"x", "negative", 1/2, "s"⟩
        "nonexistent" 2).2 =
      some (PyExcClass.valueError, belief_not_found_message "nonexistent")
    ∧ pyIsSubclass PyExcClass.valueError PyExcClass.lookupError = false := by
  exact ⟨rfl, rfl⟩

/-- C5 amended: for every identity and every absent target belief name,
`integrate_experience` fails with a `ValueError` (an `Exception` subclass,
but not LookupError-class) that surfaces to the caller, and the failure
returns the identity unchanged: same mass, same beliefs, nothing
auto-created. -/
theorem identity_C5 (i : Identity) (e : Experience) (n : String) (L : ℚ)
    (h : dictGet i.beliefs n = none) :
    i.integrate_experience e n L =
      (i, some (PyExcClass.valueError, belief_not_found_message n))
    ∧ pyIsSubclass PyExcClass.valueError PyExcClass.exception = true
    ∧ pyIsSubclass PyExcClass.valueError PyExcClass.lookupError = false := by
  refine ⟨?_, rfl, rfl⟩
  unfold Identity.integrate_experience
  rw [h]

/-- Witness for C5: the concrete failing call returns the unchanged identity
with the `ValueError`. -/
theorem identity_C5_witness :
    (Identity.mk "X" [] 0).integrate_experience ⟨"x", "negative", 1/2, "s"⟩
        "nonexistent" 2 =
      (Identity.mk "X" [] 0,
       some (PyExcClass.valueError, belief_not_found_message "nonexistent")) :=
  (identity_C5 (Identity.mk "X" [] 0) ⟨"x", "negative", 1/2, "s"⟩
    "nonexistent" 2 rfl).1

/-- C6: `weighted_value` returns the intensity for positive valence and
`-intensity * loss_aversion_factor` for negative valence; with factor 2.0 a
positive intensity-0.8 experience yields 0.8 and a negative one yields
-1.6. -/
theorem identity_C6 :
    (∀ (e : Experience) (L : ℚ), e.valence = "positive" →
       e.weighted_value L = e.intensity)
    ∧ (∀ (e : Experience) (L : ℚ), e.valence = "negative" →
       e.weighted_value L = -1 * e.intensity * L)
    ∧ Experience.weighted_value ⟨"x", "positive", 4/5, "s"⟩ 2 = 4/5
    ∧ Experience.weighted_value ⟨"x", "negative", 4/5, "s"⟩ 2 = -(8/5) := by
  refine ⟨?_, ?_, rfl, by norm_num [Experience.weighted_value]; decide⟩
  · intro e L h
    simp [Experience.weighted_value, h]
  · intro e L h
    simp [Experience.weighted_value, h]

/-- Witness for C6: concrete positive and negative instances through the
theorem. -/
theorem identity_C6_witness :
    Experience.weighted_value ⟨"y", "positive", 1/2, "s"⟩ 2 = 1/2
    ∧ Experience.weighted_value ⟨"y", "negative", 1/2, "s"⟩ 3 =
        -1 * (1/2) * 3 :=
  ⟨identity_C6.1 ⟨"y", "positive", 1/2, "s"⟩ 2 rfl,
   identity_C6.2.1 ⟨"y", "negative", 1/2, "s"⟩ 3 rfl⟩

/-- C9: every valence other than the exact string "positive" — including
malformed values — is treated like negative valence: the weighted value is
`-intensity * loss_aversion_factor`. -/
theorem identity_C9 (e : Experience) (L : ℚ) (h : e.valence ≠ "positive") :
    e.weighted_value L = -1 * e.intensity * L := by
  simp [Experience.weighted_value, h]

/-- Witness for C9: the malformed valences "neutral" and "" both get the
loss-aversion amplification. -/
theorem identity_C9_witness :
    Experience.weighted_value ⟨"x", "neutral", 4/5, "s"⟩ 2 = -1 * (4/5) * 2
    ∧ Experience.weighted_value ⟨"x", "", 4/5, "s"⟩ 2 = -1 * (4/5) * 2 :=
  ⟨identity_C9 ⟨"x", "neutral", 4/5, "s"⟩ 2 (by decide),
   identity_C9 ⟨"x", "", 4/5, "s"⟩ 2 (by decide)⟩

/-- C10: the belief constructor clamps `strength` but stores the raw
argument in `baseline_strength`; with initial strength 1.5 the new belief
has strength 1 and baseline 1.5, so the baseline lies outside [0,1], differs
from the strength, and drives the elastic-resistance distance (here 0.5,
giving factor 0.3). -/
theorem identity_C10 :
    (∀ (n : String) (s : ℚ) (t : ℕ),
       (Belief.create n s t).strength = clamp01 s ∧
         (Belief.create n s t).baseline_strength = s)
    ∧ (Belief.create "x" (3/2) 1000).strength = 1
    ∧ (Belief.create "x" (3/2) 1000).baseline_strength = 3/2
    ∧ 1 < (Belief.create "x" (3/2) 1000).baseline_strength
    ∧ (Belief.create "x" (3/2) 1000).strength ≠
        (Belief.create "x" (3/2) 1000).baseline_strength
    ∧ Belief.calculate_elastic_resistance (Belief.create "x" (3/2) 1000) = 3/10 := by
  refine ⟨fun n s t => ⟨rfl, rfl⟩,
    by norm_num [Belief.create, clamp01, min_def, max_def], rfl,
    by norm_num [Belief.create],
    by norm_num [Belief.create, clamp01, min_def, max_def],
    by norm_num [Belief.calculate_elastic_resistance, Belief.create, clamp01,
      min_def, max_def, abs_of_nonneg, abs_of_nonpos]⟩

/-- C7: on a fresh emotion system, one `process_experience` call with the
negative intensity-0.95 experience triggers Fear at intensity
`min((0.95-0.7)*2, 1) = 0.5` and Shame at `min((0.95-0.6)*1.5, 1) = 0.525`
in the same call; a subsequent `decay` on each template decrements its
active duration by exactly 1 and leaves its intensity unchanged, since the
duration is still positive after `activate(..., duration=3)`. -/
theorem emotion_C7 :
    fear_check_trigger trauma95 = min ((19/20 - 7/10) * 2) 1
    ∧ fear_check_trigger trauma95 = 1/2
    ∧ shame_check_trigger trauma95 = min ((19/20 - 3/5) * (3/2)) 1
    ∧ shame_check_trigger trauma95 = 21/40
    ∧ afterProcess.fear.intensity = 1/2
    ∧ afterProcess.shame.intensity = 21/40
    ∧ 0 < afterProcess.fear.active_duration
    ∧ 0 < afterProcess.shame.active_duration
    ∧ (afterProcess.fear.decay (3/10)).active_duration =
        afterProcess.fear.active_duration - 1
    ∧ (afterProcess.fear.decay (3/10)).intensity = afterProcess.fear.intensity
    ∧ (afterProcess.shame.decay (3/10)).active_duration =
        afterProcess.shame.active_duration - 1
    ∧ (afterProcess.shame.decay (3/10)).intensity =
        afterProcess.shame.intensity := by
  norm_num [afterProcess, processMods, EmotionSystem.process_experience,
    freshEmotionSystem, trauma95, competence_belief, activateIf, EmotionState.activate,
    EmotionState.decay, EmotionState.is_active, fear_check_trigger, shame_check_trigger,
    comfort_check_trigger, pride_check_trigger, loneliness_check_trigger, fear_influence,
    shame_influence, comfort_influence, pride_influence, loneliness_influence,
    dictUpdateAll, dictInsert, dictGet, triggerPhase, decayPhase, Belief.create,
    clamp01, min_def, max_def]

/-- C8: `process_experience` runs trigger checks and activations first, then
merges the active templates' modification dicts in iteration order with
last-write-wins dict-update semantics, then decays every template; in the
concrete 0.95-negative run the merged "intensity_multiplier" is the
loneliness value 1.1995, overwriting fear's 1.25 and shame's 1.3675 and not
any sum of them, while fear's pre-decay "resistance_multiplier" 1.15
survives from the very experience that activated it. -/
theorem emotion_C8 :
    (∀ (s : EmotionSystem) (e : Experience) (b : Belief),
       EmotionSystem.process_experience s e b =
         (collectPhase (triggerPhase s e) b e, decayPhase (triggerPhase s e)))
    ∧ dictGet processMods "intensity_multiplier" = some (2399/2000)
    ∧ dictGet processMods "resistance_multiplier" = some (23/20)
    ∧ dictGet (fear_influence (triggerPhase freshEmotionSystem trauma95).fear
        competence_belief trauma95) "intensity_multiplier" = some (5/4)
    ∧ dictGet (shame_influence (triggerPhase freshEmotionSystem trauma95).shame
        competence_belief trauma95) "intensity_multiplier" = some (547/400)
    ∧ dictGet (loneliness_influence
        (triggerPhase freshEmotionSystem trauma95).loneliness
        competence_belief trauma95) "intensity_multiplier" = some (2399/2000)
    ∧ (2399/2000 : ℚ) ≠ 5/4
    ∧ (2399/2000 : ℚ) ≠ 547/400
    ∧ (2399/2000 : ℚ) ≠ 5/4 + 547/400 + 2399/2000 := by
  have htrig : triggerPhase freshEmotionSystem trauma95 =
      ⟨⟨1/2, 3⟩, ⟨21/40, 3⟩, ⟨0, 0⟩, ⟨0, 0⟩, ⟨133/200, 3⟩⟩ := by
    norm_num [triggerPhase, freshEmotionSystem, trauma95, activateIf,
      fear_check_trigger, shame_check_trigger, comfort_check_trigger,
      pride_check_trigger, loneliness_check_trigger, EmotionState.activate,
      min_def, max_def]
    decide
  have hmods : processMods =
      [("intensity_multiplier", 2399/2000), ("resistance_multiplier", 23/20),
       ("social_sensitivity", 533/400)] := by
    have hcollect : processMods =
        collectPhase (triggerPhase freshEmotionSystem trauma95)
          competence_belief trauma95 := rfl
    rw [hcollect, htrig]
    norm_num [collectPhase, fear_influence, shame_influence, comfort_influence,
      pride_influence, loneliness_influence, EmotionState.is_active,
      dictUpdateAll, dictInsert, trauma95]
    decide
  refine ⟨fun s e b => rfl, ?_, ?_, ?_, ?_, ?_, by norm_num, by norm_num, by norm_num⟩
  · rw [hmods]
    norm_num [dictGet]
  · rw [hmods]
    norm_num [dictGet]
    decide
  · rw [htrig]
    norm_num [fear_influence, EmotionState.is_active, trauma95, dictGet]
  · rw [htrig]
    norm_num [shame_influence, EmotionState.is_active, trauma95, dictGet]
  · rw [htrig]
    norm_num [loneliness_influence, EmotionState.is_active, trauma95, dictGet]
    decide

end AGISeed
